import Mathlib

/-!
Shallow embedding of the edutech course-catalog backend.

The embedding follows the TypeScript source:
* `src/backend/src/storage.ts` — seed data and the storage functions
  `addCourse`, `updateCourse`, `deleteCourse`, `getCourseById`,
  `findUserById`, `findUserByUsername`;
* `src/backend/src/middleware.ts` — `validateCourse`, `generateToken`,
  `authenticateToken`;
* the routes file (src/unnamed/part_004) — the `/auth/login`, `/courses`,
  `/profile` handlers;
* the CourseList component (src/unnamed/part_003) — the client-side
  `sortedCourses` derivation.

Request bodies are untyped JSON at runtime; they are modelled by `JVal`
for the six validated course fields, plus typed optional entries for the
extra keys (`id`, `createdAt`, `updatedAt`, `userId`) a client may send.
Timestamps (`Date.now()`, `new Date()`) are modelled by a `now : Nat`
parameter passed to each handler; JWT lifetimes are in seconds
(`expiresIn: 24h` = 86400).  Global mutable state (`users`, `courses`)
is modelled by explicit state passing over `AppState`.
-/

namespace EduTech

/-- A JSON value as it may appear in a request-body field. -/
inductive JVal where
  | jstr (s : String)
  | jnum (q : ℚ)
  | jbool (b : Bool)
  | jnull
deriving DecidableEq

/-- A stored course record (interface `Course` in the source).
`level` is stored as its raw string; `duration` is a JS number, modelled
by `ℚ`; `createdAt` and `updatedAt` are epoch timestamps.  `userId` is
optional because a client may create a course without that key. -/
structure Course where
  id : String
  title : String
  description : String
  category : String
  level : String
  duration : ℚ
  published : Bool
  userId : Option String
  createdAt : Nat
  updatedAt : Nat
deriving DecidableEq

/-- A stored user record (interface `User` in the source). -/
structure User where
  id : String
  username : String
  email : String
  password : String
  lastLogin : Option Nat
deriving DecidableEq

/-- A request body for course create/update.  The six validated fields
are raw JSON values; the remaining keys are the extra keys a client may
also send (the handlers never validate them). -/
structure Payload where
  title : Option JVal := none
  description : Option JVal := none
  category : Option JVal := none
  level : Option JVal := none
  duration : Option JVal := none
  published : Option JVal := none
  id : Option String := none
  createdAt : Option Nat := none
  updatedAt : Option Nat := none
  userId : Option String := none
deriving DecidableEq

/-- The global in-memory state: the `users` and `courses` arrays of
`storage.ts`. -/
structure AppState where
  users : List User
  courses : List Course
deriving DecidableEq

/-! ### Seed data (storage.ts) -/

/-- Seed course with id "1" (storage.ts). -/
def course1 : Course :=
  { id := "1"
    title := "Pearson BTEC Level 4 Diploma in Business Administration"
    description := "Comprehensive business administration course covering management principles, finance, marketing, and operational strategies."
    category := "Business & Management"
    level := "intermediate"
    duration := 40
    published := true
    userId := some "1"
    createdAt := 1705276800000
    updatedAt := 1705276800000 }

/-- Seed course with id "2" (storage.ts). -/
def course2 : Course :=
  { id := "2"
    title := "Level 3 Diploma in Health and Social Care"
    description := "Essential training for healthcare professionals covering patient care, medical ethics, and social care practices."
    category := "Health & Social Care"
    level := "intermediate"
    duration := 60
    published := true
    userId := some "1"
    createdAt := 1705708800000
    updatedAt := 1705708800000 }

/-- Seed course with id "3" (storage.ts). -/
def course3 : Course :=
  { id := "3"
    title := "BTEC Level 3 IT Diploma"
    description := "Complete information technology course covering programming, networking, cybersecurity, and system administration."
    category := "Information Technology"
    level := "intermediate"
    duration := 80
    published := true
    userId := some "1"
    createdAt := 1706140800000
    updatedAt := 1706140800000 }

/-- Seed course with id "4" (storage.ts). -/
def course4 : Course :=
  { id := "4"
    title := "CACHE Level 3 Award in Childcare"
    description := "Specialized training for childcare professionals focusing on child development, safety, and educational practices."
    category := "Teaching & Education"
    level := "intermediate"
    duration := 30
    published := true
    userId := some "1"
    createdAt := 1706745600000
    updatedAt := 1706745600000 }

/-- Seed course with id "5" (storage.ts). -/
def course5 : Course :=
  { id := "5"
    title := "AAT Level 3 Diploma in Accounting"
    description := "Professional accounting qualification covering financial reporting, taxation, and business finance principles."
    category := "Accounting & Finance"
    level := "intermediate"
    duration := 50
    published := true
    userId := some "1"
    createdAt := 1707091200000
    updatedAt := 1707091200000 }

/-- Seed course with id "6" (storage.ts). -/
def course6 : Course :=
  { id := "6"
    title := "Level 4 Teaching Assistant Diploma"
    description := "Advanced training for teaching assistants covering classroom management, special needs education, and student support."
    category := "Teaching & Education"
    level := "intermediate"
    duration := 70
    published := true
    userId := some "1"
    createdAt := 1707523200000
    updatedAt := 1707523200000 }

/-- The `courses` seed array of storage.ts. -/
def seedCourses : List Course := [course1, course2, course3, course4, course5, course6]

/-- The first seed user of storage.ts. -/
def adminUser : User :=
  { id := "1"
    username := "admin"
    email := "admin@example.com"
    password := "password123"
    lastLogin := none }

/-- The second seed user of storage.ts. -/
def regularUser : User :=
  { id := "2"
    username := "user"
    email := "user@example.com"
    password := "user123"
    lastLogin := none }

/-- The `users` seed array of storage.ts. -/
def seedUsers : List User := [adminUser, regularUser]

/-- The process-start state: both seed arrays. -/
def initialState : AppState := { users := seedUsers, courses := seedCourses }

/-! ### Validation middleware (middleware.ts, validateCourse) -/

/-- `if b then [msg] else []` — one `errors.push` site of `validateCourse`. -/
def errIf (b : Bool) (msg : String) : List String :=
  if b then [msg] else []

/-- `String.prototype.trim`: strip leading and trailing whitespace. -/
def jsTrim (s : String) : String :=
  ⟨((s.data.dropWhile Char.isWhitespace).reverse.dropWhile Char.isWhitespace).reverse⟩

/-- The failure condition of
`!x || typeof x !== 'string' || x.trim().length === 0`:
the field is not a string whose trimmed form is non-empty. -/
def strFieldBad : Option JVal → Bool
  | some (.jstr s) => (jsTrim s).length == 0
  | _ => true

/-- The failure condition of
`!level || !['beginner','intermediate','advanced'].includes(level)`. -/
def levelBad : Option JVal → Bool
  | some (.jstr s) => !(["beginner", "intermediate", "advanced"].contains s)
  | _ => true

/-- The failure condition of `typeof duration !== 'number' || duration <= 0`. -/
def durationBad : Option JVal → Bool
  | some (.jnum q) => decide (q ≤ 0)
  | _ => true

/-- The failure condition of `typeof published !== 'boolean'`. -/
def publishedBad : Option JVal → Bool
  | some (.jbool _) => false
  | _ => true

/-- `validateCourse` (middleware.ts): accumulates one message per failing
field, in source order; an empty list means the body passes. -/
def validateCourse (b : Payload) : List String :=
  errIf (strFieldBad b.title) "Title is required and must be a non-empty string" ++
  errIf (strFieldBad b.description) "Description is required and must be a non-empty string" ++
  errIf (strFieldBad b.category) "Category is required and must be a non-empty string" ++
  errIf (levelBad b.level) "Level must be one of: beginner, intermediate, advanced" ++
  errIf (durationBad b.duration) "Duration must be a positive number" ++
  errIf (publishedBad b.published) "Published must be a boolean"

/-- `errors.join(', ')` on the accumulated messages. -/
def joinErrors (es : List String) : String := String.intercalate ", " es

/-! ### Token service (middleware.ts, generateToken; jsonwebtoken) -/

/-- The default signing secret of middleware.ts. -/
def JWT_SECRET : String := "your-secret-key"

/-- The identity a verified token decodes to (`req.user`). -/
structure TokenPayload where
  id : String
  username : String
deriving DecidableEq

/-- A signed token.  Modelled from the spec: a Session Token is an opaque
signed payload with userId, username, issuedAt and expiresAt, lifetime 24
hours; the signing itself is done by the third-party jsonwebtoken library,
which is not part of this repository. -/
structure Token where
  payloadId : String
  payloadUsername : String
  iat : Nat
  exp : Nat
  sig : String
deriving DecidableEq

/-- `generateToken` (middleware.ts): signs `{id, username}` with
`expiresIn: 24h`, i.e. `exp = iat + 86400` seconds. -/
def generateToken (id username : String) (now : Nat) : Token :=
  { payloadId := id, payloadUsername := username,
    iat := now, exp := now + 86400, sig := JWT_SECRET }

/-- Modelled from the spec: jsonwebtoken verification (the library call
inside `authenticateToken`) is not repository code; per spec section 4.1,
`verify` fails when the signature does not match or the current time is
at or after `expiresAt`, and otherwise decodes to `{userId, username}`. -/
def verifyToken (t : Token) (now : Nat) : Option TokenPayload :=
  if t.sig == JWT_SECRET && decide (now < t.exp) then
    some { id := t.payloadId, username := t.payloadUsername }
  else
    none

/-! ### Storage operations (storage.ts) -/

/-- Extract a string field from a validated body (`{...req.body}` keeps
the raw value; after `validateCourse` passes, the field is a string). -/
def getStr (v : Option JVal) (dflt : String) : String :=
  match v with
  | some (.jstr s) => s
  | _ => dflt

/-- Extract a numeric field from a validated body. -/
def getNum (v : Option JVal) (dflt : ℚ) : ℚ :=
  match v with
  | some (.jnum q) => q
  | _ => dflt

/-- Extract a boolean field from a validated body. -/
def getBool (v : Option JVal) (dflt : Bool) : Bool :=
  match v with
  | some (.jbool b) => b
  | _ => dflt

/-- `addCourse` (storage.ts): `{...course, id: Date.now().toString(),
createdAt: new Date(), updatedAt: new Date()}` pushed onto the array.
The overrides come after the spread, so client-sent `id`, `createdAt`
and `updatedAt` keys are shadowed. -/
def addCourse (b : Payload) (now : Nat) (cs : List Course) : Course × List Course :=
  let c : Course :=
    { id := toString now
      title := getStr b.title ""
      description := getStr b.description ""
      category := getStr b.category ""
      level := getStr b.level ""
      duration := getNum b.duration 0
      published := getBool b.published false
      userId := b.userId
      createdAt := now
      updatedAt := now }
  (c, cs ++ [c])

/-- The runtime merge `{...existingCourse, ...updates, updatedAt: new Date()}`
performed by `updateCourse` (storage.ts) on the raw request body: every key
present in the body overwrites the stored field — including `id`,
`createdAt` and `userId`, which the TypeScript type of `updateCourse`
claims to exclude but which nothing strips at runtime.  `updatedAt` is
overwritten last, so it is always the current time. -/
def mergeCourse (old : Course) (b : Payload) (now : Nat) : Course :=
  { id := b.id.getD old.id
    title := getStr b.title old.title
    description := getStr b.description old.description
    category := getStr b.category old.category
    level := getStr b.level old.level
    duration := getNum b.duration old.duration
    published := getBool b.published old.published
    userId := match b.userId with | some u => some u | none => old.userId
    createdAt := b.createdAt.getD old.createdAt
    updatedAt := now }

/-- `updateCourse` (storage.ts): `findIndex` on id, replace that entry by
the merged record, or return null when no entry matches. -/
def updateCourse (cid : String) (b : Payload) (now : Nat) : List Course → Option Course × List Course
  | [] => (none, [])
  | c :: cs =>
    if c.id == cid then
      let c' := mergeCourse c b now
      (some c', c' :: cs)
    else
      let r := updateCourse cid b now cs
      (r.1, c :: r.2)

/-- `deleteCourse` (storage.ts): `findIndex` on id, `splice(index, 1)`,
returning whether an entry was removed. -/
def deleteCourse (cid : String) : List Course → Bool × List Course
  | [] => (false, [])
  | c :: cs =>
    if c.id == cid then (true, cs)
    else
      let r := deleteCourse cid cs
      (r.1, c :: r.2)

/-- `getCourseById` (storage.ts). -/
def getCourseById (cid : String) (cs : List Course) : Option Course :=
  cs.find? (fun c => c.id == cid)

/-- `findUserById` (storage.ts). -/
def findUserById (uid : String) (us : List User) : Option User :=
  us.find? (fun u => u.id == uid)

/-- `findUserByUsername` (storage.ts). -/
def findUserByUsername (un : String) (us : List User) : Option User :=
  us.find? (fun u => u.username == un)

/-! ### Route handlers (routes file).  The handlers below model the code
that runs after `authenticateToken` has admitted the request; the token
check itself is `verifyToken` above. -/

/-- Responses of the course routes (status and body of the envelope). -/
inductive CourseResp where
  | badRequest (e : String)
  | notFound (e : String)
  | created (c : Course)
  | ok (c : Course)
  | okDeleted (m : String)
deriving DecidableEq

/-- POST /courses: `validateCourse` middleware, then `addCourse`,
returning 201 with the new record. -/
def postCourse (b : Payload) (now : Nat) (st : AppState) : CourseResp × AppState :=
  match validateCourse b with
  | [] =>
    let r := addCourse b now st.courses
    (.created r.1, { st with courses := r.2 })
  | es => (.badRequest (joinErrors es), st)

/-- PUT /courses/:id: `validateCourse` middleware, then `updateCourse`;
404 "Course not found" when the id matches no stored course. -/
def putCourse (cid : String) (b : Payload) (now : Nat) (st : AppState) : CourseResp × AppState :=
  match validateCourse b with
  | [] =>
    let r := updateCourse cid b now st.courses
    match r.1 with
    | none => (.notFound "Course not found", { st with courses := r.2 })
    | some c => (.ok c, { st with courses := r.2 })
  | es => (.badRequest (joinErrors es), st)

/-- DELETE /courses/:id: `deleteCourse`; 404 "Course not found" when the
id matches no stored course. -/
def deleteCourseRoute (cid : String) (st : AppState) : CourseResp × AppState :=
  let r := deleteCourse cid st.courses
  if r.1 then (.okDeleted "Course deleted successfully", { st with courses := r.2 })
  else (.notFound "Course not found", { st with courses := r.2 })

/-- The password-less user object returned by login and profile update. -/
structure PublicUser where
  id : String
  username : String
  email : String
  lastLogin : Option Nat
deriving DecidableEq

/-- Responses of POST /auth/login. -/
inductive LoginResp where
  | badRequest (e : String)
  | unauthorized (e : String)
  | ok (t : Token) (u : PublicUser)
deriving DecidableEq

/-- The in-place `users[userIndex].lastLogin = new Date()` of the login
handler: update the first user whose id matches. -/
def setLastLogin (uid : String) (now : Nat) : List User → List User
  | [] => []
  | u :: us =>
    if u.id == uid then { u with lastLogin := some now } :: us
    else u :: setLastLogin uid now us

/-- POST /auth/login: 400 when a credential is missing (falsy), 401 when
the username is unknown or the password differs, otherwise update
`lastLogin`, issue a token and return it with the public user. -/
def login (username password : String) (now : Nat) (st : AppState) : LoginResp × AppState :=
  if username == "" || password == "" then
    (.badRequest "Username and password are required", st)
  else
    match findUserByUsername username st.users with
    | none => (.unauthorized "Invalid credentials", st)
    | some u =>
      if u.password != password then (.unauthorized "Invalid credentials", st)
      else
        let users' := setLastLogin u.id now st.users
        (.ok (generateToken u.id u.username now)
            { id := u.id, username := u.username, email := u.email, lastLogin := some now },
          { st with users := users' })

/-- The profile object GET /profile actually builds:
`{...req.user, coursesCreated, lastLogin: req.user.lastLogin}` where
`req.user` is the decoded token payload `{id, username}` (the real
payload also carries iat/exp, which are not profile data).  The token
payload has no `email` key, so the response has none, and it has no
`lastLogin` key, so `lastLogin` is undefined (modelled `none`) no matter
what the stored user record holds. -/
structure ProfileData where
  id : String
  username : String
  coursesCreated : Nat
  lastLogin : Option Nat
deriving DecidableEq

/-- GET /profile: spreads the token payload and counts the courses whose
`userId` equals the authenticated id.  It never reads the stored user
record. -/
def getProfile (tok : TokenPayload) (st : AppState) : ProfileData :=
  { id := tok.id
    username := tok.username
    coursesCreated := (st.courses.filter (fun c => c.userId == some tok.id)).length
    lastLogin := none }

/-- Responses of PUT /profile. -/
inductive ProfileResp where
  | badRequest (e : String)
  | notFound (e : String)
  | conflict (e : String)
  | ok (u : PublicUser)
deriving DecidableEq

/-- The email shape test of PUT /profile: the anchored pattern
`one-or-more non-space-non-at, at sign, one-or-more non-space-non-at,
dot, one-or-more non-space-non-at`.  Equivalently: exactly one at sign,
non-empty whitespace-free parts on both sides, and the part after the at
sign contains a dot that is neither its first nor its last character. -/
def emailFormatOk (email : String) : Bool :=
  match email.toList.splitOn '@' with
  | [l, r] =>
    !l.isEmpty && !r.isEmpty &&
    l.all (fun c => !c.isWhitespace) && r.all (fun c => !c.isWhitespace) &&
    ((r.drop 1).dropLast.contains '.')
  | _ => false

/-- The in-place `users[userIndex] = {...users[userIndex], username, email}`
of the profile handler: replace the first user whose id matches, returning
the replacement as well. -/
def updateUserRec (uid username email : String) : List User → Option User × List User
  | [] => (none, [])
  | u :: us =>
    if u.id == uid then
      let u' := { u with username := username, email := email }
      (some u', u' :: us)
    else
      let r := updateUserRec uid username email us
      (r.1, u :: r.2)

/-- PUT /profile: 400 on a missing field or bad email shape, 404 when the
authenticated id matches no stored user, 409 "Username already taken"
when a different user already holds the requested username, otherwise
overwrite username and email on the matching record. -/
def updateProfile (tok : TokenPayload) (username email : String) (st : AppState) : ProfileResp × AppState :=
  if username == "" || email == "" then
    (.badRequest "Username and email are required", st)
  else if !emailFormatOk email then
    (.badRequest "Invalid email format", st)
  else
    match updateUserRec tok.id username email st.users with
    | (none, _) => (.notFound "User not found", st)
    | (some u', users') =>
      if (st.users.find? (fun u => u.username == username && u.id != tok.id)).isSome then
        (.conflict "Username already taken", st)
      else
        (.ok { id := u'.id, username := u'.username, email := u'.email, lastLogin := u'.lastLogin },
          { st with users := users' })

/-- A request body carrying all six course fields, each valid: the body of
the scenario in spec section 8 (title "T", description "D", category "C",
level beginner, duration 5, published false). -/
def fullBody : Payload :=
  { title := some (.jstr "T")
    description := some (.jstr "D")
    category := some (.jstr "C")
    level := some (.jstr "beginner")
    duration := some (.jnum 5)
    published := some (.jbool false) }

/-- `fullBody` with the title key omitted: a partial update payload whose
present fields are all valid. -/
def bodyNoTitle : Payload := { fullBody with title := none }

/-- `fullBody` with a fractional duration of 2.5. -/
def bodyHalfDuration : Payload := { fullBody with duration := some (.jnum (Rat.divInt 5 2)) }

/-- `fullBody` with client-chosen `id` and `createdAt` keys added. -/
def bodyWithId : Payload := { fullBody with id := some "999", createdAt := some 123 }

/-- The course that create stores when called with `fullBody` at
timestamp 1700000000000 on the seed collection. -/
def dupCourse : Course := (addCourse fullBody 1700000000000 seedCourses).1

/-- The profile the spec prescribes.  Modelled from the spec: getProfile
returns id, username, email, lastLogin and coursesCreated, where email
and lastLogin are read from the stored user record whose id equals the
authenticated id. -/
structure SpecProfile where
  id : String
  username : String
  email : String
  lastLogin : Option Nat
  coursesCreated : Nat
deriving DecidableEq

/-- Modelled from the spec: the profile read the spec describes, looking
the user up in the credential store. -/
def getProfileSpec (tok : TokenPayload) (st : AppState) : Option SpecProfile :=
  (findUserById tok.id st.users).map fun u =>
    { id := u.id, username := u.username, email := u.email, lastLogin := u.lastLogin,
      coursesCreated := (st.courses.filter (fun c => c.userId == some tok.id)).length }

/-! ### Client-side query engine: the `sortedCourses` derivation
(CourseList component).  The JS comparator computes a per-field key and
returns -1/1/0; `Array.prototype.sort` is stable (ES2019), so the sorted
view is the unique stable sort by that comparator, modelled with
`List.mergeSort`. -/

/-- The six sortable fields of the CourseList sort spec. -/
inductive SortField where
  | title | category | level | duration | createdAt | updatedAt
deriving DecidableEq

/-- Sort direction. -/
inductive SortDir where
  | asc | desc
deriving DecidableEq

/-- `toLowerCase()` on a key string. -/
def lowerStr (s : String) : String := ⟨s.data.map Char.toLower⟩

/-- Lexicographic comparison of character lists: the semantics of the JS
relational operator `<` on strings (code-unit order). -/
def strLtB : List Char → List Char → Bool
  | [], [] => false
  | [], _ :: _ => true
  | _ :: _, [] => false
  | a :: as, b :: bs =>
    if a < b then true
    else if b < a then false
    else strLtB as bs

/-- String comparison of the JS comparator keys. -/
def jsLt (x y : String) : Bool := strLtB x.data y.data

/-- Numeric comparison of the JS comparator keys. -/
def qLt (x y : ℚ) : Bool := decide (x < y)

/-- Date/number comparison of the JS comparator keys. -/
def nLt (x y : Nat) : Bool := decide (x < y)

/-- The comparator tail shared by every field:
`if (aValue < bValue) return sortDirection === asc ? -1 : 1;` and
symmetrically, else 0. -/
def cmpB {α : Type} (ltb : α → α → Bool) (d : SortDir) (x y : α) : Int :=
  if ltb x y then (match d with | .asc => -1 | .desc => 1)
  else if ltb y x then (match d with | .asc => 1 | .desc => -1)
  else 0

/-- The per-field comparator of `sortedCourses`: title and category
compare lowercased, level compares by its raw string, duration and the
two dates compare naturally. -/
def courseCmp (f : SortField) (d : SortDir) (a b : Course) : Int :=
  match f with
  | .title => cmpB jsLt d (lowerStr a.title) (lowerStr b.title)
  | .category => cmpB jsLt d (lowerStr a.category) (lowerStr b.category)
  | .level => cmpB jsLt d a.level b.level
  | .duration => cmpB qLt d a.duration b.duration
  | .createdAt => cmpB nLt d a.createdAt b.createdAt
  | .updatedAt => cmpB nLt d a.updatedAt b.updatedAt

/-- `a` may come before `b` under the comparator. -/
def courseLe (f : SortField) (d : SortDir) (a b : Course) : Bool :=
  decide (courseCmp f d a b ≤ 0)

/-- `[...filteredCourses].sort(comparator)` as a stable sort. -/
def sortedCourses (f : SortField) (d : SortDir) (l : List Course) : List Course :=
  l.mergeSort (courseLe f d)

/-! Order facts about the three key comparisons, then about the
comparator, leading to idempotence of the sort. -/

lemma strLtB_asymm : ∀ as bs : List Char, strLtB as bs = true → strLtB bs as = false
  | [], [], h => by simp [strLtB] at h
  | [], _ :: _, _ => rfl
  | _ :: _, [], h => by simp [strLtB] at h
  | a :: as, b :: bs, h => by
    by_cases hab : a < b
    · simp only [strLtB, if_neg (lt_asymm hab), if_pos hab]
    · by_cases hba : b < a
      · simp [strLtB, hab, hba] at h
      · simp only [strLtB, if_neg hab, if_neg hba] at h
        simp only [strLtB, if_neg hba, if_neg hab]
        exact strLtB_asymm as bs h

lemma strLtB_negtrans :
    ∀ xs ys zs : List Char, strLtB ys xs = false → strLtB zs ys = false →
      strLtB zs xs = false
  | [], _, zs, _, _ => by cases zs <;> rfl
  | _ :: _, [], _, h1, _ => by simp [strLtB] at h1
  | _ :: _, _ :: _, [], _, h2 => by simp [strLtB] at h2
  | x :: xs, y :: ys, z :: zs, h1, h2 => by
    simp only [strLtB] at h1 h2 ⊢
    by_cases hyx : y < x
    · simp [hyx] at h1
    · by_cases hzy : z < y
      · simp [hzy] at h2
      · have hxy : x ≤ y := not_lt.mp hyx
        have hyz : y ≤ z := not_lt.mp hzy
        have hzx : ¬ z < x := not_lt.mpr (le_trans hxy hyz)
        rw [if_neg hzx]
        by_cases hxz : x < z
        · rw [if_pos hxz]
        · rw [if_neg hxz]
          have hxz' : x = z := le_antisymm (le_trans hxy hyz) (not_lt.mp hxz)
          have hyx' : y ≤ x := le_trans hyz (le_of_eq hxz'.symm)
          have hxy' : x = y := le_antisymm hxy hyx'
          have hxy2 : ¬ x < y := by rw [hxy']; exact lt_irrefl y
          have hyz2 : ¬ y < z := by rw [← hxy', ← hxz']; exact lt_irrefl x
          rw [if_neg hyx, if_neg hxy2] at h1
          rw [if_neg hzy, if_neg hyz2] at h2
          exact strLtB_negtrans xs ys zs h1 h2

lemma jsLt_asymm (x y : String) : jsLt x y = true → jsLt y x = false :=
  strLtB_asymm x.data y.data

lemma jsLt_negtrans (x y z : String) :
    jsLt y x = false → jsLt z y = false → jsLt z x = false :=
  strLtB_negtrans x.data y.data z.data

lemma qLt_asymm (x y : ℚ) : qLt x y = true → qLt y x = false := by
  simp only [qLt, decide_eq_true_eq, decide_eq_false_iff_not]
  exact fun h => lt_asymm h

lemma qLt_negtrans (x y z : ℚ) :
    qLt y x = false → qLt z y = false → qLt z x = false := by
  simp only [qLt, decide_eq_false_iff_not]
  exact fun h1 h2 => not_lt.mpr (le_trans (not_lt.mp h1) (not_lt.mp h2))

lemma nLt_asymm (x y : Nat) : nLt x y = true → nLt y x = false := by
  simp only [nLt, decide_eq_true_eq, decide_eq_false_iff_not]
  omega

lemma nLt_negtrans (x y z : Nat) :
    nLt y x = false → nLt z y = false → nLt z x = false := by
  simp only [nLt, decide_eq_false_iff_not]
  omega

lemma cmpB_le_zero {α : Type} (ltb : α → α → Bool)
    (hasym : ∀ x y, ltb x y = true → ltb y x = false) (d : SortDir) (x y : α) :
    (cmpB ltb d x y ≤ 0 ↔
      (match d with | .asc => ltb y x = false | .desc => ltb x y = false)) := by
  cases d <;> simp only [cmpB] <;> split_ifs with h1 h2
  · simpa using hasym x y h1
  · simp [h2]
  · simpa using Bool.eq_false_iff.mpr (fun hc => h2 (by simp [hc]))
  · simp [h1]
  · simpa using Bool.eq_false_iff.mpr (fun hc => h1 (by simp [hc]))
  · simpa using Bool.eq_false_iff.mpr (fun hc => h1 (by simp [hc]))

lemma ltFalse_total {α : Type} (ltb : α → α → Bool)
    (hasym : ∀ x y, ltb x y = true → ltb y x = false) (x y : α) :
    ltb y x = false ∨ ltb x y = false := by
  by_cases h : ltb x y = true
  · exact .inl (hasym x y h)
  · exact .inr (Bool.eq_false_iff.mpr (fun hc => h (by simp [hc])))

lemma courseLe_total (f : SortField) (d : SortDir) (a b : Course) :
    courseLe f d a b || courseLe f d b a := by
  rw [Bool.or_eq_true, courseLe, courseLe, decide_eq_true_eq, decide_eq_true_eq]
  cases f <;> cases d <;>
    simp only [courseCmp, cmpB_le_zero jsLt jsLt_asymm, cmpB_le_zero qLt qLt_asymm,
      cmpB_le_zero nLt nLt_asymm] <;>
    first
    | exact ltFalse_total jsLt jsLt_asymm _ _
    | exact ltFalse_total qLt qLt_asymm _ _
    | exact ltFalse_total nLt nLt_asymm _ _

lemma courseLe_trans (f : SortField) (d : SortDir) (a b c : Course) :
    courseLe f d a b → courseLe f d b c → courseLe f d a c := by
  simp only [courseLe, decide_eq_true_eq]
  cases f <;> cases d <;>
    simp only [courseCmp, cmpB_le_zero jsLt jsLt_asymm, cmpB_le_zero qLt qLt_asymm,
      cmpB_le_zero nLt nLt_asymm] <;>
    first
    | exact fun h1 h2 => jsLt_negtrans _ _ _ h1 h2
    | exact fun h1 h2 => jsLt_negtrans _ _ _ h2 h1
    | exact fun h1 h2 => qLt_negtrans _ _ _ h1 h2
    | exact fun h1 h2 => qLt_negtrans _ _ _ h2 h1
    | exact fun h1 h2 => nLt_negtrans _ _ _ h1 h2
    | exact fun h1 h2 => nLt_negtrans _ _ _ h2 h1

/-! ### Claim theorems -/

/-- C7: for every list of courses and every sort spec (field among title,
category, level, duration, createdAt, updatedAt; direction asc or desc),
applying the query engine sort a second time with the same spec to the
already-sorted sequence yields a sequence identical to the once-sorted
sequence. -/
theorem c7_sort_idempotent (f : SortField) (d : SortDir) (l : List Course) :
    sortedCourses f d (sortedCourses f d l) = sortedCourses f d l :=
  List.mergeSort_of_sorted
    (List.sorted_mergeSort (courseLe_trans f d) (courseLe_total f d) l)

/-! ### Helper lemmas about validation and the storage operations -/

lemma errIf_eq_nil (flag : Bool) (msg : String) : errIf flag msg = [] ↔ flag = false := by
  cases flag <;> simp [errIf]

lemma mem_errIf (s : String) (flag : Bool) (msg : String) :
    s ∈ errIf flag msg ↔ (flag = true ∧ s = msg) := by
  cases flag <;> simp [errIf]

lemma validateCourse_eq_nil (b : Payload) :
    validateCourse b = [] ↔
      (strFieldBad b.title = false ∧ strFieldBad b.description = false ∧
        strFieldBad b.category = false ∧ levelBad b.level = false ∧
        durationBad b.duration = false ∧ publishedBad b.published = false) := by
  simp [validateCourse, List.append_eq_nil, errIf_eq_nil, and_assoc]

lemma updateCourse_not_found (cid : String) (b : Payload) (now : Nat) :
    ∀ cs : List Course, (∀ c ∈ cs, (c.id == cid) = false) →
      updateCourse cid b now cs = (none, cs)
  | [], _ => rfl
  | c :: cs, h => by
    have hc := h c (List.mem_cons_self c cs)
    simp only [updateCourse, hc, Bool.false_eq_true, if_false]
    rw [updateCourse_not_found cid b now cs (fun x hx => h x (List.mem_cons_of_mem c hx))]

lemma updateCourse_found (cid : String) (b : Payload) (now : Nat) :
    ∀ (pre : List Course) (old : Course) (post : List Course),
      (∀ c ∈ pre, (c.id == cid) = false) → (old.id == cid) = true →
      updateCourse cid b now (pre ++ old :: post) =
        (some (mergeCourse old b now), pre ++ mergeCourse old b now :: post)
  | [], old, post, _, hold => by
    simp only [List.nil_append, updateCourse, hold, if_true]
  | c :: pre, old, post, h, hold => by
    have hc := h c (List.mem_cons_self c pre)
    simp only [List.cons_append, updateCourse, hc, Bool.false_eq_true, if_false,
      List.append_eq]
    rw [updateCourse_found cid b now pre old post
      (fun x hx => h x (List.mem_cons_of_mem c hx)) hold]

lemma deleteCourse_not_found (cid : String) :
    ∀ cs : List Course, (∀ c ∈ cs, (c.id == cid) = false) →
      deleteCourse cid cs = (false, cs)
  | [], _ => rfl
  | c :: cs, h => by
    have hc := h c (List.mem_cons_self c cs)
    simp only [deleteCourse, hc, Bool.false_eq_true, if_false]
    rw [deleteCourse_not_found cid cs (fun x hx => h x (List.mem_cons_of_mem c hx))]

/-! ### Claim theorems (continued) -/

/-- C1, counterexample: a partial update payload that omits `title` but
whose present fields are all valid is not merged; PUT /courses/1 rejects
it with the aggregated validation message and leaves the state unchanged,
so the claim that update validates only the fields present is false. -/
theorem c1_counterexample :
    putCourse "1" bodyNoTitle 99 initialState =
      (.badRequest "Title is required and must be a non-empty string", initialState) := by
  rfl

/-- C1, amended: PUT /courses/:id runs the full six-field create
validation on every body, so a payload omitting any of the six fields is
rejected with 400 regardless of the validity of its present fields; when
all six fields pass validation and a course with the requested id exists,
the handler merges the body onto the first matching stored record, sets
`updatedAt = now`, and returns the merged course. -/
theorem c1_theorem (b : Payload) (st : AppState) (cid : String) (now : Nat) :
    ((b.title = none ∨ b.description = none ∨ b.category = none ∨ b.level = none ∨
        b.duration = none ∨ b.published = none) →
      validateCourse b ≠ [] ∧
        putCourse cid b now st = (.badRequest (joinErrors (validateCourse b)), st)) ∧
    (validateCourse b = [] →
      ∀ pre old post, st.courses = pre ++ old :: post →
        (∀ c ∈ pre, (c.id == cid) = false) → (old.id == cid) = true →
        putCourse cid b now st =
          (.ok (mergeCourse old b now),
            { st with courses := pre ++ mergeCourse old b now :: post }) ∧
          (mergeCourse old b now).updatedAt = now) := by
  constructor
  · intro hmiss
    have hne : validateCourse b ≠ [] := by
      intro hnil
      rw [validateCourse_eq_nil] at hnil
      rcases hmiss with h | h | h | h | h | h <;> rw [h] at hnil <;>
        simp [strFieldBad, levelBad, durationBad, publishedBad] at hnil
    refine ⟨hne, ?_⟩
    rcases hv : validateCourse b with _ | ⟨e, es⟩
    · exact absurd hv hne
    · simp [putCourse, hv]
  · intro hv pre old post hsplit hpre hold
    refine ⟨?_, rfl⟩
    simp only [putCourse, hv, hsplit]
    rw [updateCourse_found cid b now pre old post hpre hold]

/-- C1, witness: updating seed course 1 with a fully valid body succeeds
and replaces all six fields, stamping `updatedAt`. -/
theorem c1_theorem_witness :
    putCourse "1" fullBody 99 initialState =
      (.ok (mergeCourse course1 fullBody 99),
        { initialState with
          courses := [mergeCourse course1 fullBody 99, course2, course3, course4,
            course5, course6] }) ∧
      (mergeCourse course1 fullBody 99).updatedAt = 99 := by
  have h := (c1_theorem fullBody initialState "1" 99).2 (by decide)
    [] course1 [course2, course3, course4, course5, course6] rfl (by simp) (by decide)
  simpa using h

/-- C3, counterexample: two successful creates in the same millisecond
(`Date.now()` equal) produce courses with equal ids, so the second new id
coincides with the id of a course already in the collection — uniqueness
fails. -/
theorem c3_counterexample :
    (postCourse fullBody 1700000000000 initialState).1 = .created dupCourse ∧
    (postCourse fullBody 1700000000000
        (postCourse fullBody 1700000000000 initialState).2).1 = .created dupCourse ∧
    dupCourse ∈ (postCourse fullBody 1700000000000 initialState).2.courses := by
  refine ⟨rfl, rfl, ?_⟩
  show _ ∈ seedCourses ++ [_]
  exact List.mem_append_right _ (List.mem_singleton.mpr rfl)

/-- C3, amended: the id assigned by create is `Date.now().toString()`;
it differs from all prior ids exactly when that string is not already an
id in the collection — which fails when two creates share a millisecond,
and holds whenever the creation timestamp string is fresh. -/
theorem c3_theorem (b : Payload) (now : Nat) (st : AppState)
    (hv : validateCourse b = []) :
    ∃ c, (postCourse b now st).1 = .created c ∧ c.id = toString now ∧
      (postCourse b now st).2.courses = st.courses ++ [c] ∧
      ((∀ c0 ∈ st.courses, c0.id ≠ toString now) →
        ∀ c0 ∈ st.courses, c0.id ≠ c.id) := by
  refine ⟨(addCourse b now st.courses).1, ?_, rfl, ?_, ?_⟩
  · simp [postCourse, hv]
  · simp [postCourse, hv]; rfl
  · intro hfresh c0 hc0
    exact hfresh c0 hc0

/-- C3, witness: creating from the seed state at a fresh timestamp yields
id "7", distinct from every seed id. -/
theorem c3_theorem_witness :
    ∃ c, (postCourse fullBody 7 initialState).1 = .created c ∧ c.id = "7" ∧
      (postCourse fullBody 7 initialState).2.courses = initialState.courses ++ [c] ∧
      (∀ c0 ∈ initialState.courses, c0.id ≠ c.id) := by
  obtain ⟨c, h1, h2, h3, h4⟩ := c3_theorem fullBody 7 initialState (by decide)
  exact ⟨c, h1, h2, h3, h4 (by decide)⟩

/-- C4: the PUT handler passes the raw request body into the merge, so a
body that also carries `id` and `createdAt` keys overwrites both on the
stored record: updating seed course 1 with `id: "999", createdAt: 123`
stores a course whose id is "999" and createdAt is 123, contradicting the
immutability the code's own `Omit` type for `updateCourse` declares. -/
theorem c4_bug_eval :
    (putCourse "1" bodyWithId 99 initialState).1 = .ok (mergeCourse course1 bodyWithId 99) ∧
    (mergeCourse course1 bodyWithId 99).id = "999" ∧
    (mergeCourse course1 bodyWithId 99).createdAt = 123 ∧
    course1.id = "1" ∧ course1.createdAt = 1705276800000 ∧
    (putCourse "1" bodyWithId 99 initialState).2.courses.map Course.id =
      ["999", "2", "3", "4", "5", "6"] := by
  exact ⟨rfl, rfl, rfl, rfl, rfl, rfl⟩

/-- C5, counterexample: the payload with duration 2.5 (numeric, strictly
positive, not whole) passes validation and is accepted by create with
duration exactly 2.5, so the claim that non-whole durations are rejected
is false. -/
theorem c5_counterexample :
    validateCourse bodyHalfDuration = [] ∧
    (postCourse bodyHalfDuration 7 initialState).1 =
      .created (addCourse bodyHalfDuration 7 seedCourses).1 ∧
    (addCourse bodyHalfDuration 7 seedCourses).1.duration = Rat.divInt 5 2 := by
  exact ⟨by decide, rfl, by decide⟩

/-- C5, amended: for a numeric duration the validator emits its error
exactly when the value is not strictly positive; wholeness is not
checked, so any strictly positive number — integral or not — passes. -/
theorem c5_theorem (b : Payload) (q : ℚ) (h : b.duration = some (.jnum q)) :
    "Duration must be a positive number" ∈ validateCourse b ↔ q ≤ 0 := by
  simp [validateCourse, mem_errIf, h, durationBad]

/-- C5, witness: duration 2.5 draws no duration error. -/
theorem c5_theorem_witness :
    ¬ "Duration must be a positive number" ∈ validateCourse bodyHalfDuration := by
  rw [c5_theorem bodyHalfDuration (Rat.divInt 5 2) rfl]
  decide

/-- C6: deleting an id that matches no stored course returns 404 "Course
not found" and leaves the collection exactly as it was (same list, hence
same length, elements and order). -/
theorem c6_theorem (cid : String) (st : AppState)
    (h : ∀ c ∈ st.courses, (c.id == cid) = false) :
    deleteCourseRoute cid st = (.notFound "Course not found", st) := by
  simp only [deleteCourseRoute, deleteCourse_not_found cid st.courses h,
    Bool.false_eq_true, if_false]

/-- C6, witness: deleting id "999" from the seed state 404s and keeps the
state. -/
theorem c6_theorem_witness :
    deleteCourseRoute "999" initialState = (.notFound "Course not found", initialState) :=
  c6_theorem "999" initialState (by decide)

/-- C10: `addCourse` overrides client-sent `id`, `createdAt` and
`updatedAt` after spreading the body, so for every payload the stored
course has the freshly generated id `Date.now().toString()` and both
timestamps equal to the creation time, and the new record is appended;
when the body passes validation the POST route stores exactly that
record. -/
theorem c10_theorem (b : Payload) (now : Nat) (st : AppState) :
    (addCourse b now st.courses).1.id = toString now ∧
    (addCourse b now st.courses).1.createdAt = now ∧
    (addCourse b now st.courses).1.updatedAt = now ∧
    (addCourse b now st.courses).2 = st.courses ++ [(addCourse b now st.courses).1] ∧
    (validateCourse b = [] →
      postCourse b now st =
        (.created (addCourse b now st.courses).1,
          { st with courses := (addCourse b now st.courses).2 })) := by
  refine ⟨rfl, rfl, rfl, rfl, fun hv => ?_⟩
  simp [postCourse, hv]

/-- C10, witness: a body carrying `id: "999"` and `createdAt: 123` is
ignored for those keys — the stored course gets id "555" (the timestamp)
and createdAt 555. -/
theorem c10_theorem_witness :
    (addCourse bodyWithId 555 initialState.courses).1.id = "555" ∧
    (addCourse bodyWithId 555 initialState.courses).1.createdAt = 555 ∧
    (addCourse bodyWithId 555 initialState.courses).1.updatedAt = 555 ∧
    postCourse bodyWithId 555 initialState =
      (.created (addCourse bodyWithId 555 initialState.courses).1,
        { initialState with courses := (addCourse bodyWithId 555 initialState.courses).2 }) := by
  obtain ⟨h1, h2, h3, _, h5⟩ := c10_theorem bodyWithId 555 initialState
  exact ⟨h1, h2, h3, h5 (by decide)⟩

/-! ### Helper lemmas about the user collection -/

lemma pairwise_ne_of_map_eq {β : Type} (f : User → β) {us us' : List User}
    (hmap : us'.map f = us.map f) (h : us.Pairwise (fun a b => f a ≠ f b)) :
    us'.Pairwise (fun a b => f a ≠ f b) := by
  have h2 : (us.map f).Pairwise (fun a b => a ≠ b) := List.pairwise_map.mpr h
  rw [← hmap] at h2
  exact List.pairwise_map.mp h2

lemma setLastLogin_map_username (uid : String) (now : Nat) :
    ∀ us : List User, (setLastLogin uid now us).map User.username = us.map User.username
  | [] => rfl
  | u :: us => by
    by_cases h : (u.id == uid) = true
    · simp [setLastLogin, h]
    · simp [setLastLogin, h, setLastLogin_map_username uid now us]

lemma setLastLogin_map_id (uid : String) (now : Nat) :
    ∀ us : List User, (setLastLogin uid now us).map User.id = us.map User.id
  | [] => rfl
  | u :: us => by
    by_cases h : (u.id == uid) = true
    · simp [setLastLogin, h]
    · simp [setLastLogin, h, setLastLogin_map_id uid now us]

lemma updateUserRec_map_id (uid un em : String) :
    ∀ us : List User, ((updateUserRec uid un em us).2).map User.id = us.map User.id
  | [] => rfl
  | u :: us => by
    by_cases h : (u.id == uid) = true
    · simp [updateUserRec, h]
    · simp [updateUserRec, h, updateUserRec_map_id uid un em us]

lemma updateUserRec_mem (uid un em : String) :
    ∀ us : List User, ∀ v ∈ (updateUserRec uid un em us).2, v ∈ us ∨ v.username = un
  | [], v, hv => by simp [updateUserRec] at hv
  | u :: us, v, hv => by
    by_cases h : (u.id == uid) = true
    · simp only [updateUserRec, h, if_true, List.mem_cons] at hv
      rcases hv with hv | hv
      · exact .inr (by rw [hv])
      · exact .inl (List.mem_cons_of_mem u hv)
    · simp only [updateUserRec, h, Bool.false_eq_true, if_false, List.mem_cons] at hv
      rcases hv with hv | hv
      · exact .inl (by rw [hv]; exact List.mem_cons_self u us)
      · rcases updateUserRec_mem uid un em us v hv with h2 | h2
        · exact .inl (List.mem_cons_of_mem u h2)
        · exact .inr h2

lemma updateUserRec_pairwise (uid un em : String) :
    ∀ us : List User, us.Pairwise (fun a b => a.id ≠ b.id) →
      us.Pairwise (fun a b => a.username ≠ b.username) →
      (∀ u ∈ us, u.username = un → u.id = uid) →
      ((updateUserRec uid un em us).2).Pairwise (fun a b => a.username ≠ b.username)
  | [], _, _, _ => by simp [updateUserRec]
  | u :: us, hid, hname, hconf => by
    rw [List.pairwise_cons] at hid hname
    by_cases h : (u.id == uid) = true
    · simp only [updateUserRec, h, if_true]
      rw [List.pairwise_cons]
      refine ⟨?_, hname.2⟩
      intro v hv heq
      have hvid : v.id = uid := hconf v (List.mem_cons_of_mem u hv) heq.symm
      have huid : u.id = uid := by simpa using h
      exact hid.1 v hv (by rw [huid, hvid])
    · simp only [updateUserRec, h, Bool.false_eq_true, if_false]
      rw [List.pairwise_cons]
      constructor
      · intro v hv
        rcases updateUserRec_mem uid un em us v hv with h2 | h2
        · exact hname.1 v h2
        · intro heq
          have : u.id = uid := hconf u (List.mem_cons_self u us) (by rw [heq, h2])
          simp [this] at h
      · exact updateUserRec_pairwise uid un em us hid.2 hname.2
          (fun v hv => hconf v (List.mem_cons_of_mem u hv))

lemma updateUserRec_isSome (uid un em : String) :
    ∀ us : List User, (∃ u ∈ us, u.id = uid) →
      ∃ u', (updateUserRec uid un em us).1 = some u'
  | [], h => by simp at h
  | u :: us, h => by
    by_cases hc : (u.id == uid) = true
    · exact ⟨{ u with username := un, email := em }, by simp [updateUserRec, hc]⟩
    · obtain ⟨v, hv, hvid⟩ := h
      rcases List.mem_cons.mp hv with rfl | hv2
      · simp [hvid] at hc
      · obtain ⟨u', hu'⟩ := updateUserRec_isSome uid un em us ⟨v, hv2, hvid⟩
        exact ⟨u', by simp [updateUserRec, hc, hu']⟩

/-! ### Claim theorems on users, login and profile -/

/-- C8: username uniqueness is an invariant.  The seed users have
pairwise distinct usernames (and ids); login and profile update preserve
both distinctness properties; the course routes do not touch the user
collection at all; and whenever the requested username is held by a
different user (and the request passes its field and email checks and the
requester exists), PUT /profile answers 409 "Username already taken" and
leaves the whole user collection — in particular the requester's own
record — unchanged. -/
theorem c8_theorem :
    (initialState.users.Pairwise (fun a b => a.username ≠ b.username) ∧
      initialState.users.Pairwise (fun a b => a.id ≠ b.id)) ∧
    (∀ un pw now st, st.users.Pairwise (fun a b => a.username ≠ b.username) →
      st.users.Pairwise (fun a b => a.id ≠ b.id) →
      ((login un pw now st).2.users.Pairwise (fun a b => a.username ≠ b.username) ∧
        (login un pw now st).2.users.Pairwise (fun a b => a.id ≠ b.id))) ∧
    (∀ tok un em st, st.users.Pairwise (fun a b => a.username ≠ b.username) →
      st.users.Pairwise (fun a b => a.id ≠ b.id) →
      ((updateProfile tok un em st).2.users.Pairwise (fun a b => a.username ≠ b.username) ∧
        (updateProfile tok un em st).2.users.Pairwise (fun a b => a.id ≠ b.id))) ∧
    (∀ b now st, (postCourse b now st).2.users = st.users) ∧
    (∀ cid b now st, (putCourse cid b now st).2.users = st.users) ∧
    (∀ cid st, (deleteCourseRoute cid st).2.users = st.users) ∧
    (∀ tok un em st, (∃ u ∈ st.users, u.id = tok.id) →
      (∃ u ∈ st.users, u.username = un ∧ u.id ≠ tok.id) →
      un ≠ "" → em ≠ "" → emailFormatOk em = true →
      updateProfile tok un em st = (.conflict "Username already taken", st)) := by
  refine ⟨⟨by decide, by decide⟩, ?_, ?_, ?_, ?_, ?_, ?_⟩
  · -- login preserves both distinctness properties
    intro un pw now st hname hid
    by_cases hcred : (un == "" || pw == "") = true
    · simp [login, hcred, hname, hid]
    · rcases hf : findUserByUsername un st.users with _ | u
      · simp [login, hcred, hf, hname, hid]
      · by_cases hpw : (u.password != pw) = true
        · simp [login, hcred, hf, hpw, hname, hid]
        · simp only [login, hcred, Bool.false_eq_true, if_false, hf, hpw]
          exact ⟨pairwise_ne_of_map_eq User.username
              (setLastLogin_map_username u.id now st.users) hname,
            pairwise_ne_of_map_eq User.id (setLastLogin_map_id u.id now st.users) hid⟩
  · -- updateProfile preserves both distinctness properties
    intro tok un em st hname hid
    by_cases h1 : (un == "" || em == "") = true
    · simp [updateProfile, h1, hname, hid]
    · rcases hm : emailFormatOk em with _ | _
      · simp [updateProfile, h1, hm, hname, hid]
      · rcases hur : updateUserRec tok.id un em st.users with ⟨o, us'⟩
        rcases o with _ | u'
        · simp [updateProfile, h1, hm, hur, hname, hid]
        · by_cases hc :
            (st.users.find? (fun u => u.username == un && u.id != tok.id)).isSome = true
          · simp [updateProfile, h1, hm, hur, hc, hname, hid]
          · have hconf : ∀ u ∈ st.users, u.username = un → u.id = tok.id := by
              intro u hu heq
              by_contra hne
              apply hc
              rw [List.find?_isSome]
              exact ⟨u, hu, by simp [heq, hne]⟩
            have hname' := updateUserRec_pairwise tok.id un em st.users hid hname hconf
            have hid' := pairwise_ne_of_map_eq User.id
              (updateUserRec_map_id tok.id un em st.users) hid
            rw [hur] at hname' hid'
            simp [updateProfile, h1, hm, hur, hc, hname', hid']
  · intro b now st
    rcases hv : validateCourse b with _ | ⟨e, es⟩ <;> simp [postCourse, hv]
  · intro cid b now st
    rcases hv : validateCourse b with _ | ⟨e, es⟩
    · rcases hu : (updateCourse cid b now st.courses).1 with _ | c <;>
        simp [putCourse, hv, hu]
    · simp [putCourse, hv]
  · intro cid st
    by_cases hd : (deleteCourse cid st.courses).1 = true <;> simp [deleteCourseRoute, hd]
  · -- the conflict scenario
    intro tok un em st hreq hconf hun hem hok
    have h1 : (un == "" || em == "") = false := by simp [hun, hem]
    obtain ⟨u', hu'⟩ := updateUserRec_isSome tok.id un em st.users hreq
    rcases hur : updateUserRec tok.id un em st.users with ⟨o, us'⟩
    rw [hur] at hu'
    simp only at hu'
    subst hu'
    have hc : (st.users.find? (fun u => u.username == un && u.id != tok.id)).isSome = true := by
      rw [List.find?_isSome]
      obtain ⟨u, hu, hun2, hne⟩ := hconf
      exact ⟨u, hu, by simp [hun2, hne]⟩
    simp [updateProfile, h1, hok, hur, hc]

/-- C8, witness: in the seed state, the admin user requesting the
username "user" — already held by the other seed user — gets the 409
conflict and the state is untouched; and the seed usernames are pairwise
distinct. -/
theorem c8_theorem_witness :
    updateProfile { id := "1", username := "admin" } "user" "a@b.c" initialState =
      (.conflict "Username already taken", initialState) ∧
    initialState.users.Pairwise (fun a b => a.username ≠ b.username) := by
  refine ⟨?_, c8_theorem.1.1⟩
  apply c8_theorem.2.2.2.2.2.2
  · exact ⟨adminUser, by decide, rfl⟩
  · exact ⟨regularUser, by decide, rfl, by decide⟩
  · decide
  · decide
  · decide

/-- C9: for credentials matching a stored user (the first user whose
username matches, with the matching password), login answers 200 with a
token for that user, and — with token verification modelled from the
spec, since the jsonwebtoken library is not repository code — the token
verifies to exactly that user's id and username at every instant strictly
before 24 hours (86400 seconds) after issuance, and fails to verify at or
after that instant. -/
theorem c9_theorem (un pw : String) (now : Nat) (st : AppState) (u : User)
    (hun : un ≠ "") (hpw : pw ≠ "")
    (hfind : findUserByUsername un st.users = some u)
    (hpwd : u.password = pw) :
    (login un pw now st).1 =
      .ok (generateToken u.id u.username now)
        { id := u.id, username := u.username, email := u.email, lastLogin := some now } ∧
    (∀ t, t < now + 86400 →
      verifyToken (generateToken u.id u.username now) t =
        some { id := u.id, username := u.username }) ∧
    (∀ t, now + 86400 ≤ t → verifyToken (generateToken u.id u.username now) t = none) := by
  have h1 : (un == "" || pw == "") = false := by simp [hun, hpw]
  have h2 : (u.password != pw) = false := by simp [hpwd]
  refine ⟨by simp [login, h1, hfind, h2], fun t ht => ?_, fun t ht => ?_⟩
  · simp [verifyToken, generateToken, ht]
  · simp [verifyToken, generateToken]
    omega

/-- C9, witness: admin logs in at time 42; the token verifies at 86441
(one second before expiry) to admin's identity and fails at 86442 (24
hours after issuance). -/
theorem c9_theorem_witness :
    (login "admin" "password123" 42 initialState).1 =
      .ok (generateToken "1" "admin" 42)
        { id := "1", username := "admin", email := "admin@example.com",
          lastLogin := some 42 } ∧
    verifyToken (generateToken "1" "admin" 42) 86441 =
      some { id := "1", username := "admin" } ∧
    verifyToken (generateToken "1" "admin" 42) 86442 = none := by
  obtain ⟨h1, h2, h3⟩ := c9_theorem "admin" "password123" 42 initialState
    adminUser (by decide) (by decide) rfl rfl
  exact ⟨h1, h2 86441 (by decide), h3 86442 (by decide)⟩

/-- C2: the handler spreads the decoded token payload `{id, username}`
instead of reading the stored user record, so after admin logs in at time
42 the profile response carries `lastLogin = none` (undefined) and no
email field at all (`ProfileData` has none to carry), while the stored
record — which the spec says the profile is read from — holds
`lastLogin = 42` and the email; the computed course count itself is
correct. -/
theorem c2_bug_eval :
    (getProfile { id := "1", username := "admin" }
        (login "admin" "password123" 42 initialState).2).lastLogin = none ∧
    (getProfileSpec { id := "1", username := "admin" }
        (login "admin" "password123" 42 initialState).2).map SpecProfile.lastLogin =
      some (some 42) ∧
    (getProfileSpec { id := "1", username := "admin" }
        (login "admin" "password123" 42 initialState).2).map SpecProfile.email =
      some "admin@example.com" ∧
    (getProfile { id := "1", username := "admin" }
        (login "admin" "password123" 42 initialState).2).coursesCreated = 6 := by
  exact ⟨rfl, rfl, rfl, rfl⟩

end EduTech
